import Mathlib

/-!
Verification of the Porcupine keyword detector adapter.

Shallow embedding of `KWD/Porcupine/src/PorcupineKeyWordDetector.cpp` (and its
header) from the avs-device-sdk Porcupine fork.  The embedding models:

* the audio-format compatibility check
  (`PorcupineKeyWordDetector::isAudioFormatCompatibleWithPorcupine`,
  lines 151-188 of the .cpp),
* the factory `PorcupineKeyWordDetector::create` (lines 65-102), the
  constructor (lines 111-135) and `init` (lines 137-149), as a function of an
  environment recording the externally determined outcomes (null stream,
  byteswap requirement, json parse success, the status returned by
  `pv_porcupine_init`, reader creation), and
* the worker-thread body `PorcupineKeyWordDetector::detectionLoop`
  (lines 190-250), as a recursive function over a script of stream-read
  results, with the external Porcupine engine given as an oracle from the
  call index to the result of `pv_porcupine_process`.  The function produces
  the trace of observer notifications (plus stream-read markers) and the
  final resource state.

External collaborators (the shared data stream, the observer sets, the
`AbstractKeywordDetector` helpers `readFromStream` / `isByteswappingRequired`
/ `notify...Observers`, the nlohmann json parser, and the native Porcupine
engine) are modelled as parameters / oracles, exactly at the narrow interface
the .cpp uses.
-/

namespace PorcupineKWD

/-- The type `avsCommon::utils::AudioFormat::Endianness`. -/
inductive Endianness where
  | little
  | big
deriving DecidableEq, Repr

/-- The type `avsCommon::utils::AudioFormat::Encoding` (LPCM and the other encoding
the SDK supports). -/
inductive Encoding where
  | lpcm
  | opus
deriving DecidableEq, Repr

/-- The fields of `avsCommon::utils::AudioFormat` read by the detector. -/
structure AudioFormat where
  numChannels : Nat
  sampleRateHz : Nat
  sampleSizeInBits : Nat
  endianness : Endianness
  encoding : Encoding
deriving DecidableEq, Repr

/-- The reason codes logged by `isAudioFormatCompatibleWithPorcupine` when it
rejects a format, one per checked field. -/
inductive MismatchField where
  | numChannels
  | sampleRate
  | sampleSizeInBits
  | endianness
  | encoding
deriving DecidableEq, Repr

/-- The check `PorcupineKeyWordDetector::isAudioFormatCompatibleWithPorcupine`
(.cpp lines 151-188), refined to also return the reason code that the C++
logs on its early-return failure paths: `none` means compatible, `some f`
means the check failed at field `f` (the first mismatching field in the
fixed source order). -/
def formatCheck (audioFormat : AudioFormat) : Option MismatchField :=
  if audioFormat.numChannels ≠ 1 then some MismatchField.numChannels
  else if audioFormat.sampleRateHz ≠ 16000 then some MismatchField.sampleRate
  else if audioFormat.sampleSizeInBits ≠ 16 then some MismatchField.sampleSizeInBits
  else if audioFormat.endianness ≠ Endianness.little then some MismatchField.endianness
  else if audioFormat.encoding ≠ Encoding.lpcm then some MismatchField.encoding
  else none

/-- The boolean result of `isAudioFormatCompatibleWithPorcupine`: true iff no
field mismatches. -/
def isAudioFormatCompatibleWithPorcupine (audioFormat : AudioFormat) : Bool :=
  (formatCheck audioFormat).isNone

/-- The unique audio format accepted by the detector: mono, 16 kHz, 16-bit,
little-endian, LPCM. -/
def porcupineRequiredFormat : AudioFormat :=
  ⟨1, 16000, 16, Endianness.little, Encoding.lpcm⟩

/-- The type `pv_status_t`: the status codes of the native Porcupine engine that the
.cpp inspects (`PV_STATUS_SUCCESS`, `PV_STATUS_OUT_OF_MEMORY`,
`PV_STATUS_IO_ERROR`, `PV_STATUS_INVALID_ARGUMENT`). -/
inductive PvStatus where
  | success
  | outOfMemory
  | ioError
  | invalidArgument
deriving DecidableEq, Repr

/-- The statuses the detection loop treats as fatal (every non-success
status of the switch at .cpp lines 211-241). -/
def PvStatus.isFatal : PvStatus → Bool
  | PvStatus.success => false
  | _ => true

/-- The outcome of one `pv_porcupine_process` call: the returned status plus
the by-reference boolean detection result (meaningful on success). -/
structure ProcessResult where
  status : PvStatus
  detected : Bool
deriving DecidableEq, Repr

/-- Environment of one `PorcupineKeyWordDetector::create` call: the
externally determined facts that the factory's control flow branches on
(or, in the case of `engineInitStatus`, is specified to branch on). -/
structure CreateEnv where
  /-- Whether the `stream` argument is non-null (.cpp line 72). -/
  streamPresent : Bool
  /-- The result of `isByteswappingRequired(audioFormat)` (.cpp line 77), a
  helper of the base class comparing the format endianness with the
  platform endianness; modelled as an oracle bit. -/
  byteswapRequired : Bool
  /-- The `audioFormat` argument. -/
  audioFormat : AudioFormat
  /-- Whether `porcupineConfFile >> porcupineConf` (.cpp lines 84-85)
  succeeds.  When the file cannot be opened or does not parse, the nlohmann
  json stream extraction operator throws a parse exception, and `create`
  has no try/catch around it. -/
  configParses : Bool
  /-- The status `pv_porcupine_init` returns inside the constructor
  (.cpp lines 125-129). -/
  engineInitStatus : PvStatus
  /-- Whether `m_stream->createReader(...)` (.cpp line 141) returns a
  non-null reader. -/
  readerCreated : Bool
deriving DecidableEq, Repr

/-- What one `create` call did, as observable by the caller and by the
native engine: whether an exception escaped `create`, whether a non-null
detector was returned, whether `pv_porcupine_init` was invoked (an engine
resource acquisition), and whether the detection thread was spawned. -/
structure CreateOutcome where
  threwException : Bool
  detectorReturned : Bool
  engineInitCalled : Bool
  threadStarted : Bool
deriving DecidableEq, Repr

/-- The member `PorcupineKeyWordDetector::init` (.cpp lines 137-149): checks the audio
format, creates the stream reader, and on success clears the shutdown flag
and spawns the detection thread.  Returns (ok, threadStarted); in the
source both are decided together, since the thread is spawned exactly when
`init` is about to return true.  Note that `init` does NOT consult the
status that `pv_porcupine_init` returned in the constructor. -/
def init (audioFormat : AudioFormat) (readerCreated : Bool) : Bool × Bool :=
  if ¬ isAudioFormatCompatibleWithPorcupine audioFormat then (false, false)
  else if ¬ readerCreated then (false, false)
  else (true, true)

/-- The factory `PorcupineKeyWordDetector::create` (.cpp lines 65-102) together with the
constructor it invokes (.cpp lines 111-135):

1. null stream → return nullptr (no exception, no engine init, no thread);
2. `isByteswappingRequired(audioFormat)` → return nullptr likewise;
3. read and parse the json config; on failure the json extraction operator
   throws out of `create` (no engine init, no thread);
4. run the constructor: `pv_porcupine_init` is called; its status is only
   logged (.cpp lines 132-134), it never affects control flow;
5. run `init(audioFormat)`: on failure return nullptr (engine already
   initialised, no thread), on success return the detector (thread
   spawned). -/
def create (e : CreateEnv) : CreateOutcome :=
  if ¬ e.streamPresent then ⟨false, false, false, false⟩
  else if e.byteswapRequired then ⟨false, false, false, false⟩
  else if ¬ e.configParses then ⟨true, false, false, false⟩
  else
    let initOut := init e.audioFormat e.readerCreated
    ⟨false, initOut.1, true, initOut.2⟩

/-- The enum `KeyWordDetectorStateObserverInterface::KeyWordDetectorState`, restricted
to the two values this detector emits. -/
inductive DetectorState where
  | active
  | error
deriving DecidableEq, Repr

/-- The keyword begin/end index passed to keyword observers; the source
always passes `KeyWordObserverInterface::UNSPECIFIED_INDEX`. -/
inductive KeywordIndex where
  | unspecified
  | spanIndex (i : Nat)
deriving DecidableEq, Repr

/-- One observable action of the detection loop thread: a stream read of a
given number of words (not an observer callout, recorded to order
notifications against reads), a state-observer notification, or a
keyword-observer notification carrying the stream handle (as an id), the
configured keyword label, the span index, and the reader position
(`m_streamReader->tell()`). -/
inductive Event where
  | streamRead (numWords : Nat)
  | stateChanged (s : DetectorState)
  | keywordDetected (streamId : Nat) (keyword : String) (index : KeywordIndex) (pos : Nat)
deriving DecidableEq, Repr

/-- Resource / progress state of the loop thread: the frame buffer
`m_buffer`, the reader position (total words the reader has consumed, what
`tell()` reports), the number of `pv_porcupine_process` calls made so far,
and whether the stream reader, resp. the native engine handle, has been
released.  The engine-release flag exists because the specification speaks
about releasing the handle; the source contains no `pv_porcupine_delete`
call, so no operation of this embedding ever sets it. -/
structure LoopState where
  buffer : List Int
  pos : Nat
  calls : Nat
  readerClosed : Bool
  engineReleased : Bool
deriving DecidableEq, Repr

/-- The result of one `readFromStream` call as seen by the loop: the error
flag and the words read (the source checks `didErrorOccur` first and only
uses `wordsRead > 0` afterwards). -/
structure ReadResult where
  didErrorOccur : Bool
  samples : List Int
deriving DecidableEq, Repr

/-- Output of the engine-invocation block. -/
structure EngineBlockOut where
  events : List Event
  buffer : List Int
  fatalOccurred : Bool
deriving DecidableEq, Repr

/-- The engine-invocation block of the detection loop (.cpp lines 209-241):
given the result of `pv_porcupine_process` on the buffer head, the switch

* on `PV_STATUS_SUCCESS`: if the detection flag is set, notify the keyword
  observers with (stream, keyword, UNSPECIFIED_INDEX, tell()); then erase
  the first `frameLength` samples from the buffer;
* on any other status: notify the state observers of ERROR and mark the
  iteration fatal; the buffer is NOT erased on this path. -/
def engineBlock (res : ProcessResult) (streamId : Nat) (keyword : String)
    (tellPos : Nat) (buffer : List Int) (frameLength : Nat) : EngineBlockOut :=
  match res.status with
  | PvStatus.success =>
      ⟨if res.detected then
          [Event.keywordDetected streamId keyword KeywordIndex.unspecified tellPos]
        else [],
       buffer.drop frameLength,
       false⟩
  | _ =>
      ⟨[Event.stateChanged DetectorState.error], buffer, true⟩

/-- One iteration of the while loop either breaks out (`halt`) or proceeds
to the next iteration (`next`); each carries the events emitted during the
iteration and the state afterwards. -/
inductive IterStep where
  | halt (events : List Event) (st : LoopState)
  | next (events : List Event) (st : LoopState)
deriving DecidableEq, Repr

/-- The state carried by an `IterStep`. -/
def IterStep.state : IterStep → LoopState
  | IterStep.halt _ st => st
  | IterStep.next _ st => st

/-- The events carried by an `IterStep`. -/
def IterStep.events : IterStep → List Event
  | IterStep.halt evs _ => evs
  | IterStep.next evs _ => evs

/-- One iteration of the while loop of `detectionLoop` (.cpp lines 194-248):

* read from the stream (recorded as a `streamRead` event; the reader
  position advances by the words read);
* if `didErrorOccur`: break;
* else if `wordsRead > 0`: notify state observers of ACTIVE, append the
  read words to `m_buffer`, and if the buffer size now strictly exceeds
  `pv_porcupine_frame_length()`, run the engine block (the engine oracle is
  consulted at the current call index); break if the block was fatal;
* else (zero words, no error): do nothing and loop again. -/
def loopIteration (engine : Nat → ProcessResult) (frameLength streamId : Nat)
    (keyword : String) (r : ReadResult) (st : LoopState) : IterStep :=
  if r.didErrorOccur then
    IterStep.halt [Event.streamRead r.samples.length] st
  else if 0 < r.samples.length then
    let pos1 := st.pos + r.samples.length
    let buf1 := st.buffer ++ r.samples
    if frameLength < buf1.length then
      let eb := engineBlock (engine st.calls) streamId keyword pos1 buf1 frameLength
      let st2 : LoopState := ⟨eb.buffer, pos1, st.calls + 1, st.readerClosed, st.engineReleased⟩
      if eb.fatalOccurred then
        IterStep.halt (Event.streamRead r.samples.length ::
          Event.stateChanged DetectorState.active :: eb.events) st2
      else
        IterStep.next (Event.streamRead r.samples.length ::
          Event.stateChanged DetectorState.active :: eb.events) st2
    else
      IterStep.next [Event.streamRead r.samples.length,
        Event.stateChanged DetectorState.active]
        ⟨buf1, pos1, st.calls, st.readerClosed, st.engineReleased⟩
  else
    IterStep.next [Event.streamRead r.samples.length] st

/-- The while loop of `detectionLoop`, driven by a finite script of read
results; an empty script models `m_isShuttingDown` being observed true at
the top of the loop. -/
def runLoop (engine : Nat → ProcessResult) (frameLength streamId : Nat)
    (keyword : String) : List ReadResult → LoopState → List Event × LoopState
  | [], st => ([], st)
  | r :: rest, st =>
      match loopIteration engine frameLength streamId keyword r st with
      | IterStep.halt evs st1 => (evs, st1)
      | IterStep.next evs st1 =>
          let out := runLoop engine frameLength streamId keyword rest st1
          (evs ++ out.1, out.2)

/-- The initial loop state: empty buffer, reader at position zero, no engine
calls yet, nothing released. -/
def initialLoopState : LoopState := ⟨[], 0, 0, false, false⟩

/-- The thread body `PorcupineKeyWordDetector::detectionLoop` (.cpp lines 190-250): notify
the state observers of ACTIVE once, run the while loop, and close the
stream reader on exit. -/
def detectionLoop (engine : Nat → ProcessResult) (frameLength streamId : Nat)
    (keyword : String) (script : List ReadResult) : List Event × LoopState :=
  let out := runLoop engine frameLength streamId keyword script initialLoopState
  (Event.stateChanged DetectorState.active :: out.1,
   ⟨out.2.buffer, out.2.pos, out.2.calls, true, out.2.engineReleased⟩)

/-- The destructor (`PorcupineKeyWordDetector::~PorcupineKeyWordDetector`, .cpp lines
104-109): sets `m_isShuttingDown` (modelled by the script having ended) and
joins the thread.  It releases no resource itself; in particular it does
not call `pv_porcupine_delete` (no line of the source does). -/
def detectorDestructor (st : LoopState) : LoopState := st

/-- A whole worker-thread lifetime followed by destruction of the detector:
the detection loop runs to completion on the script, then the destructor
joins it. -/
def detectorLifecycle (engine : Nat → ProcessResult) (frameLength streamId : Nat)
    (keyword : String) (script : List ReadResult) : List Event × LoopState :=
  let out := detectionLoop engine frameLength streamId keyword script
  (out.1, detectorDestructor out.2)

/-! ## Theorems about the format validator -/

/-- C6: the format validator accepts exactly the required descriptor
(mono, 16000 Hz, 16 bits, little endian, LPCM); on any other descriptor it
rejects and reports the first mismatching field, the fields being checked
in the fixed order channel count, sample rate, sample size, endianness,
encoding. -/
theorem format_validator_first_mismatch (f : AudioFormat) :
    (isAudioFormatCompatibleWithPorcupine f = true ↔ f = porcupineRequiredFormat)
    ∧ (formatCheck f = none ↔ f = porcupineRequiredFormat)
    ∧ (formatCheck f = some MismatchField.numChannels ↔ f.numChannels ≠ 1)
    ∧ (formatCheck f = some MismatchField.sampleRate ↔
        f.numChannels = 1 ∧ f.sampleRateHz ≠ 16000)
    ∧ (formatCheck f = some MismatchField.sampleSizeInBits ↔
        f.numChannels = 1 ∧ f.sampleRateHz = 16000 ∧ f.sampleSizeInBits ≠ 16)
    ∧ (formatCheck f = some MismatchField.endianness ↔
        f.numChannels = 1 ∧ f.sampleRateHz = 16000 ∧ f.sampleSizeInBits = 16
          ∧ f.endianness ≠ Endianness.little)
    ∧ (formatCheck f = some MismatchField.encoding ↔
        f.numChannels = 1 ∧ f.sampleRateHz = 16000 ∧ f.sampleSizeInBits = 16
          ∧ f.endianness = Endianness.little ∧ f.encoding ≠ Encoding.lpcm) := by
  obtain ⟨c, r, b, en, enc⟩ := f
  simp only [isAudioFormatCompatibleWithPorcupine, formatCheck, porcupineRequiredFormat,
    AudioFormat.mk.injEq, Option.isNone_iff_eq_none]
  split_ifs <;> simp_all

/-! ## Theorems about create / init -/

/-- A create environment in which everything succeeds except that
`pv_porcupine_init` reports `PV_STATUS_INVALID_ARGUMENT`. -/
def engineInitFailureEnv : CreateEnv :=
  ⟨true, false, porcupineRequiredFormat, true, PvStatus.invalidArgument, true⟩

/-- C1: when `pv_porcupine_init` fails (here with INVALID_ARGUMENT) while
the stream is non-null, the format is compatible, the config parses, and
the reader is created, `create` nevertheless returns a non-null detector
and starts the detection thread: the status of `pv_porcupine_init` is only
logged in the constructor and never consulted by `init` or `create`. -/
theorem create_starts_thread_despite_engine_init_failure :
    engineInitFailureEnv.engineInitStatus ≠ PvStatus.success
    ∧ create engineInitFailureEnv =
        ⟨false, true, true, true⟩ := by decide

/-- A create environment whose audio format has two channels (every other
input well-formed). -/
def twoChannelEnv : CreateEnv :=
  ⟨true, false, ⟨2, 16000, 16, Endianness.little, Encoding.lpcm⟩, true,
    PvStatus.success, true⟩

/-- C2 counterexample: with a two-channel format, `create` does fail (no
detector, no thread), but `pv_porcupine_init` has already been invoked by
the constructor before the format validation ran, so an engine resource was
acquired despite the mismatch. -/
theorem format_mismatch_still_acquires_engine :
    isAudioFormatCompatibleWithPorcupine twoChannelEnv.audioFormat = false
    ∧ (create twoChannelEnv).engineInitCalled = true
    ∧ (create twoChannelEnv).detectorReturned = false := by decide

/-- C2 amended: for every construction attempt that reaches the constructor
(non-null stream, no byteswap needed, config parses) with a mismatching
audio format, construction fails fast — no detector is returned, no
exception escapes, and no thread is started — but the engine resource has
already been acquired by the constructor at that point. -/
theorem format_mismatch_fails_before_thread (e : CreateEnv)
    (h1 : e.streamPresent = true) (h2 : e.byteswapRequired = false)
    (h3 : e.configParses = true)
    (h4 : isAudioFormatCompatibleWithPorcupine e.audioFormat = false) :
    create e = ⟨false, false, true, false⟩ := by
  simp [create, init, h1, h2, h3, h4]

/-- Witness for the C2 amended theorem at the two-channel environment. -/
theorem format_mismatch_fails_before_thread_witness :
    (twoChannelEnv.streamPresent = true
      ∧ twoChannelEnv.byteswapRequired = false
      ∧ twoChannelEnv.configParses = true
      ∧ isAudioFormatCompatibleWithPorcupine twoChannelEnv.audioFormat = false)
    ∧ create twoChannelEnv = ⟨false, false, true, false⟩ :=
  ⟨by decide,
   format_mismatch_fails_before_thread twoChannelEnv rfl rfl rfl (by decide)⟩

/-- A create environment whose configuration file cannot be parsed (every
other input well-formed). -/
def badConfigEnv : CreateEnv :=
  ⟨true, false, porcupineRequiredFormat, false, PvStatus.success, true⟩

/-- C5: when the configuration file cannot be opened or parsed, no thread
is started and no detector reaches the caller, but the failure escapes
`create` as a thrown parse exception (the json stream extraction at .cpp
lines 84-85 throws and `create` has no handler), rather than as the
documented nullptr return. -/
theorem unparsable_config_throws_out_of_create :
    (create badConfigEnv).threwException = true
    ∧ (create badConfigEnv).detectorReturned = false
    ∧ (create badConfigEnv).threadStarted = false
    ∧ (create badConfigEnv).engineInitCalled = false := by decide

/-! ## Theorems about the detection loop -/

/-- An engine oracle whose every process call reports OUT_OF_MEMORY. -/
def fatalEngine : Nat → ProcessResult := fun _ => ⟨PvStatus.outOfMemory, false⟩

/-- An engine oracle whose every process call reports success with a
detection. -/
def alwaysDetectEngine : Nat → ProcessResult := fun _ => ⟨PvStatus.success, true⟩

/-- A script with a single successful read of three samples. -/
def oneReadScript : List ReadResult := [⟨false, [1, 2, 3]⟩]

/-- C3 counterexample: with frame length 2 and one read of [1, 2, 3], the
engine call reports a fatal status; the process call happened (call count
one) yet the buffer still holds all three samples afterwards — it was not
shrunk by the frame length, contradicting the claim that exactly
`frameLength` samples are removed regardless of outcome. -/
theorem fatal_outcome_leaves_buffer_untouched :
    ((detectionLoop fatalEngine 2 0 "alexa" oneReadScript).2).calls = 1
    ∧ ((detectionLoop fatalEngine 2 0 "alexa" oneReadScript).2).buffer = [1, 2, 3]
    ∧ ([1, 2, 3] : List Int) ≠ List.drop 2 ([1, 2, 3] : List Int) := by decide

/-- C3 amended: after an engine process call on a buffer longer than the
frame length, if the status is non-fatal (SUCCESS, detection or not)
exactly `frameLength` samples are removed from the buffer head, the
remainder keeping its order; if the status is fatal the buffer is left
unchanged and the iteration is marked fatal (the loop exits). -/
theorem frame_dropped_exactly_on_success (res : ProcessResult)
    (streamId : Nat) (keyword : String) (tellPos : Nat) (buf : List Int)
    (frameLength : Nat) (h : frameLength < buf.length) :
    (res.status.isFatal = false →
      (engineBlock res streamId keyword tellPos buf frameLength).buffer =
          buf.drop frameLength
      ∧ ((engineBlock res streamId keyword tellPos buf frameLength).buffer).length
          + frameLength = buf.length
      ∧ (engineBlock res streamId keyword tellPos buf frameLength).fatalOccurred = false)
    ∧ (res.status.isFatal = true →
      (engineBlock res streamId keyword tellPos buf frameLength).buffer = buf
      ∧ (engineBlock res streamId keyword tellPos buf frameLength).fatalOccurred = true) := by
  obtain ⟨s, d⟩ := res
  cases s <;> simp [engineBlock, PvStatus.isFatal]
  omega

/-- Witness for the C3 amended theorem: a successful, non-detecting process
call on buffer [1, 2, 3] with frame length 2 leaves buffer [3]. -/
theorem frame_dropped_exactly_on_success_witness :
    2 < ([1, 2, 3] : List Int).length
    ∧ (((⟨PvStatus.success, false⟩ : ProcessResult).status.isFatal = false →
        (engineBlock ⟨PvStatus.success, false⟩ 0 "alexa" 3 [1, 2, 3] 2).buffer =
            List.drop 2 [1, 2, 3]
        ∧ ((engineBlock ⟨PvStatus.success, false⟩ 0 "alexa" 3 [1, 2, 3] 2).buffer).length
            + 2 = ([1, 2, 3] : List Int).length
        ∧ (engineBlock ⟨PvStatus.success, false⟩ 0 "alexa" 3 [1, 2, 3] 2).fatalOccurred = false)
      ∧ ((⟨PvStatus.success, false⟩ : ProcessResult).status.isFatal = true →
        (engineBlock ⟨PvStatus.success, false⟩ 0 "alexa" 3 [1, 2, 3] 2).buffer = [1, 2, 3]
        ∧ (engineBlock ⟨PvStatus.success, false⟩ 0 "alexa" 3 [1, 2, 3] 2).fatalOccurred = true)) :=
  ⟨by decide, frame_dropped_exactly_on_success ⟨PvStatus.success, false⟩ 0 "alexa" 3
    [1, 2, 3] 2 (by decide)⟩

/-- C7: in every loop iteration the engine process call happens at most
once; it happens exactly when the read succeeded, read a positive number of
words, and the buffer after appending them strictly exceeds the frame
length; when the accumulated buffer is at most the frame length no process
call occurs and the partial data persists unchanged (appended, never
zero-padded or discarded) into the next iteration; a zero-length error-free
read changes nothing. -/
theorem process_called_at_most_once_per_iteration (engine : Nat → ProcessResult)
    (frameLength streamId : Nat) (keyword : String) (r : ReadResult) (st : LoopState) :
    ((loopIteration engine frameLength streamId keyword r st).state).calls ≤ st.calls + 1
    ∧ (((loopIteration engine frameLength streamId keyword r st).state).calls = st.calls + 1
        ↔ (r.didErrorOccur = false ∧ 0 < r.samples.length
            ∧ frameLength < (st.buffer ++ r.samples).length))
    ∧ (r.didErrorOccur = false → 0 < r.samples.length →
        ¬ frameLength < (st.buffer ++ r.samples).length →
        loopIteration engine frameLength streamId keyword r st =
          IterStep.next [Event.streamRead r.samples.length,
              Event.stateChanged DetectorState.active]
            ⟨st.buffer ++ r.samples, st.pos + r.samples.length, st.calls,
              st.readerClosed, st.engineReleased⟩)
    ∧ (r.didErrorOccur = false → r.samples = [] →
        loopIteration engine frameLength streamId keyword r st =
          IterStep.next [Event.streamRead 0] st) := by
  refine ⟨?_, ?_, ?_, ?_⟩
  · simp only [loopIteration]
    split_ifs <;> simp [IterStep.state]
  · by_cases h1 : r.didErrorOccur
    · simp [loopIteration, h1, IterStep.state]
    · by_cases h2 : 0 < r.samples.length
      · by_cases h3 : frameLength < (st.buffer ++ r.samples).length
        · simp only [loopIteration, h1, h2, h3, if_true, if_false, Bool.false_eq_true,
            ite_true, ite_false]
          split <;> simp [IterStep.state, h1, h2, h3]
        · have h3a : ¬ frameLength < st.buffer.length + r.samples.length := by
            simpa using h3
          simp [loopIteration, h1, h2, h3, h3a, IterStep.state]
      · simp [loopIteration, h1, h2, IterStep.state]
  · intro h1 h2 h3
    have h3a : ¬ frameLength < st.buffer.length + r.samples.length := by
      simpa using h3
    simp [loopIteration, h1, h2, h3, h3a]
  · intro h1 h2
    simp [loopIteration, h1, h2]

/-- C9: in an iteration whose read succeeds with fresh words, whose
accumulated buffer exceeds the frame length, and whose engine call reports
success with a detection, the keyword observers are notified exactly once,
with the stream handle, the configured keyword label, the UNSPECIFIED span
index, and the reader position at that moment (the words consumed by the
reader so far); the iteration then continues normally with the frame
dropped. -/
theorem detection_notified_once_with_cursor (engine : Nat → ProcessResult)
    (frameLength streamId : Nat) (keyword : String) (r : ReadResult) (st : LoopState)
    (h1 : r.didErrorOccur = false) (h2 : 0 < r.samples.length)
    (h3 : frameLength < (st.buffer ++ r.samples).length)
    (h4 : engine st.calls = ⟨PvStatus.success, true⟩) :
    loopIteration engine frameLength streamId keyword r st =
      IterStep.next
        [Event.streamRead r.samples.length,
         Event.stateChanged DetectorState.active,
         Event.keywordDetected streamId keyword KeywordIndex.unspecified
           (st.pos + r.samples.length)]
        ⟨(st.buffer ++ r.samples).drop frameLength, st.pos + r.samples.length,
          st.calls + 1, st.readerClosed, st.engineReleased⟩ := by
  have h3a : frameLength < st.buffer.length + r.samples.length := by
    simpa using h3
  simp [loopIteration, engineBlock, h1, h2, h3, h3a, h4]

/-- Witness for C9 at frame length 2, one read of [1, 2, 3], from the
initial state. -/
theorem detection_notified_once_with_cursor_witness :
    ((⟨false, [1, 2, 3]⟩ : ReadResult).didErrorOccur = false
      ∧ 0 < (⟨false, [1, 2, 3]⟩ : ReadResult).samples.length
      ∧ 2 < (initialLoopState.buffer ++ (⟨false, [1, 2, 3]⟩ : ReadResult).samples).length
      ∧ alwaysDetectEngine initialLoopState.calls = ⟨PvStatus.success, true⟩)
    ∧ loopIteration alwaysDetectEngine 2 0 "alexa" ⟨false, [1, 2, 3]⟩ initialLoopState =
        IterStep.next
          [Event.streamRead 3, Event.stateChanged DetectorState.active,
           Event.keywordDetected 0 "alexa" KeywordIndex.unspecified 3]
          ⟨[3], 3, 1, false, false⟩ :=
  ⟨⟨rfl, by decide, by decide, rfl⟩,
   detection_notified_once_with_cursor alwaysDetectEngine 2 0 "alexa"
     ⟨false, [1, 2, 3]⟩ initialLoopState rfl (by decide) (by decide) rfl⟩

/-- C10: the detection loop thread notifies the state observers of ACTIVE
as its very first action, before any stream read; in particular on a run
that reads nothing at all (empty script) the trace is exactly that one
ACTIVE notification. -/
theorem active_notified_before_first_read (engine : Nat → ProcessResult)
    (frameLength streamId : Nat) (keyword : String) (script : List ReadResult) :
    ((detectionLoop engine frameLength streamId keyword script).1).head? =
        some (Event.stateChanged DetectorState.active)
    ∧ (detectionLoop engine frameLength streamId keyword []).1 =
        [Event.stateChanged DetectorState.active] := by
  constructor
  · simp [detectionLoop]
  · simp [detectionLoop, runLoop]

/-- Auxiliary case analysis of one loop iteration: either the iteration
halts having emitted only its read marker (stream read error), or it halts
having emitted the read marker, the ACTIVE notification, and the ERROR
notification (fatal engine status), or it continues with an event list
that contains no ERROR notification. -/
lemma loopIteration_error_cases (engine : Nat → ProcessResult)
    (frameLength streamId : Nat) (keyword : String) (r : ReadResult) (st : LoopState) :
    (∃ st1, loopIteration engine frameLength streamId keyword r st =
        IterStep.halt [Event.streamRead r.samples.length] st1)
    ∨ (∃ st1, loopIteration engine frameLength streamId keyword r st =
        IterStep.halt [Event.streamRead r.samples.length,
          Event.stateChanged DetectorState.active,
          Event.stateChanged DetectorState.error] st1)
    ∨ (∃ evs st1, loopIteration engine frameLength streamId keyword r st =
          IterStep.next evs st1
        ∧ Event.stateChanged DetectorState.error ∉ evs) := by
  by_cases h1 : r.didErrorOccur
  · exact Or.inl ⟨st, by simp [loopIteration, h1]⟩
  · by_cases h2 : 0 < r.samples.length
    · by_cases h3 : frameLength < (st.buffer ++ r.samples).length
      · rcases hres : engine st.calls with ⟨s, d⟩
        have h3a : frameLength < st.buffer.length + r.samples.length := by
          simpa using h3
        cases s
        · exact Or.inr (Or.inr
            ⟨Event.streamRead r.samples.length :: Event.stateChanged DetectorState.active ::
                (if d then [Event.keywordDetected streamId keyword KeywordIndex.unspecified
                  (st.pos + r.samples.length)] else []),
              ⟨(st.buffer ++ r.samples).drop frameLength, st.pos + r.samples.length,
                st.calls + 1, st.readerClosed, st.engineReleased⟩,
              by simp [loopIteration, h1, h2, h3, h3a, hres, engineBlock],
              by cases d <;> simp⟩)
        all_goals exact Or.inr (Or.inl
          ⟨⟨st.buffer ++ r.samples, st.pos + r.samples.length, st.calls + 1,
              st.readerClosed, st.engineReleased⟩,
            by simp [loopIteration, h1, h2, h3, h3a, hres, engineBlock]⟩)
      · have h3a : ¬ frameLength < st.buffer.length + r.samples.length := by
          simpa using h3
        exact Or.inr (Or.inr
          ⟨[Event.streamRead r.samples.length, Event.stateChanged DetectorState.active],
            ⟨st.buffer ++ r.samples, st.pos + r.samples.length, st.calls,
              st.readerClosed, st.engineReleased⟩,
            by simp [loopIteration, h1, h2, h3, h3a], by simp⟩)
    · exact Or.inr (Or.inr
        ⟨[Event.streamRead r.samples.length], st,
          by simp [loopIteration, h1, h2], by simp⟩)

/-- Auxiliary invariant of the while loop: whenever an ERROR notification
appears in the emitted trace, it is the final element of the trace and the
only ERROR in it. -/
lemma runLoop_error_terminal (engine : Nat → ProcessResult)
    (frameLength streamId : Nat) (keyword : String) :
    ∀ (script : List ReadResult) (st : LoopState),
      Event.stateChanged DetectorState.error ∈
          (runLoop engine frameLength streamId keyword script st).1 →
      ∃ pre, (runLoop engine frameLength streamId keyword script st).1 =
          pre ++ [Event.stateChanged DetectorState.error]
        ∧ Event.stateChanged DetectorState.error ∉ pre := by
  intro script
  induction script with
  | nil => intro st h; simp [runLoop] at h
  | cons r rest ih =>
    intro st h
    rcases loopIteration_error_cases engine frameLength streamId keyword r st with
      ⟨st1, heq⟩ | ⟨st1, heq⟩ | ⟨evs, st1, heq, herr⟩
    · rw [runLoop, heq] at h
      simp at h
    · rw [runLoop, heq] at h ⊢
      exact ⟨[Event.streamRead r.samples.length,
        Event.stateChanged DetectorState.active], by simp, by simp⟩
    · have hsplit : (runLoop engine frameLength streamId keyword (r :: rest) st).1 =
          evs ++ (runLoop engine frameLength streamId keyword rest st1).1 := by
        rw [runLoop, heq]
      rw [hsplit] at h ⊢
      have hmem : Event.stateChanged DetectorState.error ∈
          (runLoop engine frameLength streamId keyword rest st1).1 := by
        rcases List.mem_append.mp h with hl | hr
        · exact absurd hl herr
        · exact hr
      obtain ⟨pre, hpre, hnot⟩ := ih st1 hmem
      refine ⟨evs ++ pre, ?_, ?_⟩
      · rw [hpre, List.append_assoc]
      · simp [List.mem_append, herr, hnot]

/-- C8: whenever the detection loop emits an ERROR state notification
(which it does exactly on a fatal engine status), that notification is
emitted exactly once and is the last event of the whole run: the loop
exits immediately afterwards, so no further ACTIVE notification, keyword
notification, or even stream read follows it. -/
theorem fatal_error_notified_once_then_silence (engine : Nat → ProcessResult)
    (frameLength streamId : Nat) (keyword : String) (script : List ReadResult)
    (h : Event.stateChanged DetectorState.error ∈
        (detectionLoop engine frameLength streamId keyword script).1) :
    ∃ pre, (detectionLoop engine frameLength streamId keyword script).1 =
        pre ++ [Event.stateChanged DetectorState.error]
      ∧ Event.stateChanged DetectorState.error ∉ pre := by
  have hmem : Event.stateChanged DetectorState.error ∈
      (runLoop engine frameLength streamId keyword script initialLoopState).1 := by
    simpa [detectionLoop] using h
  obtain ⟨pre, hpre, hnot⟩ :=
    runLoop_error_terminal engine frameLength streamId keyword script
      initialLoopState hmem
  refine ⟨Event.stateChanged DetectorState.active :: pre, ?_, ?_⟩
  · simp [detectionLoop, hpre]
  · simp [hnot]

/-- Witness for C8: with frame length 2, one read of [1, 2, 3], and an
engine reporting OUT_OF_MEMORY, the trace contains ERROR, and it is the
unique final event. -/
theorem fatal_error_notified_once_then_silence_witness :
    Event.stateChanged DetectorState.error ∈
        (detectionLoop fatalEngine 2 0 "alexa" oneReadScript).1
    ∧ ∃ pre, (detectionLoop fatalEngine 2 0 "alexa" oneReadScript).1 =
          pre ++ [Event.stateChanged DetectorState.error]
        ∧ Event.stateChanged DetectorState.error ∉ pre :=
  ⟨by decide,
   fatal_error_notified_once_then_silence fatalEngine 2 0 "alexa" oneReadScript
     (by decide)⟩

/-- Auxiliary: a single loop iteration never changes the engine-released
flag (no operation of the loop calls anything that frees the engine). -/
lemma loopIteration_preserves_engineReleased (engine : Nat → ProcessResult)
    (frameLength streamId : Nat) (keyword : String) (r : ReadResult) (st : LoopState) :
    ((loopIteration engine frameLength streamId keyword r st).state).engineReleased =
      st.engineReleased := by
  simp only [loopIteration]
  split_ifs <;> simp [IterStep.state]

/-- Auxiliary: the while loop never changes the engine-released flag. -/
lemma runLoop_preserves_engineReleased (engine : Nat → ProcessResult)
    (frameLength streamId : Nat) (keyword : String) :
    ∀ (script : List ReadResult) (st : LoopState),
      ((runLoop engine frameLength streamId keyword script st).2).engineReleased =
        st.engineReleased := by
  intro script
  induction script with
  | nil => intro st; simp [runLoop]
  | cons r rest ih =>
    intro st
    have hpres := loopIteration_preserves_engineReleased engine frameLength
      streamId keyword r st
    rw [runLoop]
    rcases hit : loopIteration engine frameLength streamId keyword r st with
      ⟨evs, st1⟩ | ⟨evs, st1⟩
    · rw [hit] at hpres
      simpa [IterStep.state] using hpres
    · rw [hit] at hpres
      simp only [IterStep.state] at hpres
      simpa [ih st1] using hpres

/-- C4: over a whole worker-thread run followed by the detector's
destruction, the stream reader does get closed on loop exit, but the
native engine handle is never released on any path — no operation of the
source ever calls the engine's release primitive — contradicting the
claim that the handle is released exactly once. -/
theorem engine_handle_never_released (engine : Nat → ProcessResult)
    (frameLength streamId : Nat) (keyword : String) (script : List ReadResult) :
    ((detectorLifecycle engine frameLength streamId keyword script).2).engineReleased
        = false
    ∧ ((detectorLifecycle engine frameLength streamId keyword script).2).readerClosed
        = true := by
  constructor
  · have := runLoop_preserves_engineReleased engine frameLength streamId keyword
      script initialLoopState
    simpa [detectorLifecycle, detectionLoop, detectorDestructor,
      initialLoopState] using this
  · simp [detectorLifecycle, detectionLoop, detectorDestructor]

end PorcupineKWD
